import Mathlib

/-!
# Verification of the sourcivity extraction/normalization pipeline

Shallow embedding of the core pipeline code of the repository:

* `src/app/api/utils/pdf_scraper.py` — `PDFScraper.download_pdf`,
  `PDFScraper.extract_markdown_from_pdf`, `PDFScraper.scrape_pdf`,
  `PDFScraper.scrape_multiple`, `PDFScraper.extract_standardized_specs`
* `src/app/api/search/parts.py` — the final column collection of `search_parts`
* `src/app/api/utils/service_scraper.py` — the per-record contact-URL
  resolution of `ServiceScraper.scrape_multiple`

External capabilities (network fetch, the PDF parser `fitz`, the
markdown converter `pymupdf4llm`, and the generative model) are taken as
explicit function/value parameters; everything the Python code itself
computes is embedded as executable Lean definitions.  Byte strings are
modelled as `List Nat`, markdown/text as `String`, and parsed JSON
objects as structures whose fields mirror the keys the code reads.
-/

set_option maxRecDepth 10000

namespace Sourcivity

/-! ## String helpers

`String.trim`, `String.startsWith` and `String.toLower` from core do not
reduce inside the kernel, so the Python string operations the code uses
(`str.strip`, `str.startswith`, `str.lower`) are embedded over the
character list of the string. -/

/-- Python `str.strip()`: remove leading and trailing whitespace. -/
def pyStrip (s : String) : String :=
  String.mk (((s.data.dropWhile Char.isWhitespace).reverse.dropWhile
    Char.isWhitespace).reverse)

/-- Python `str.startswith(p)`. -/
def pyStartsWith (s p : String) : Bool := p.data.isPrefixOf s.data

/-- Python `str.lower()` (ASCII case folding suffices for the keys the
code compares). -/
def pyToLower (s : String) : String := String.mk (s.data.map Char.toLower)

/-! ## Document acquisition: `PDFScraper.download_pdf` (pdf_scraper.py lines 70–98)

The network fetch is external; the validation the function performs on the
downloaded bytes is embedded: first the `%PDF` magic-byte check, then the
1024-byte minimum-size check, in that order. -/

/-- The four bytes of the `%PDF` header the code checks with
`content.startswith(b'%PDF')`. -/
def pdfMagic : List Nat := [0x25, 0x50, 0x44, 0x46]

/-- The two `ValueError` kinds `download_pdf` can raise after a successful
HTTP fetch: missing PDF header, or a body smaller than 1024 bytes. -/
inductive DownloadError where
  | invalidFormat
  | tooSmall
deriving DecidableEq

/-- Validation performed by `download_pdf` on fetched bytes
(pdf_scraper.py lines 86–96): reject when the content does not start with
`%PDF`; otherwise reject when it is shorter than 1024 bytes; otherwise
return the content. -/
def download_pdf_validate (content : List Nat) : Except DownloadError (List Nat) :=
  if ¬ (pdfMagic.isPrefixOf content) then .error .invalidFormat
  else if content.length < 1024 then .error .tooSmall
  else .ok content

/-! ## Markdown extraction: `PDFScraper.extract_markdown_from_pdf`
(pdf_scraper.py lines 100–134)

A parsed PDF document is modelled as its list of pages; the binary
`pymupdf4llm.to_markdown` conversion is an explicit parameter
`toMarkdown : List String → String`.  The code never rejects a document
for its page count: when the document has more than 10 pages it builds a
new document from the first 10 pages and converts that instead. -/

/-- The `ValueError` kinds of `extract_markdown_from_pdf`: an empty
document, or extracted markdown whose stripped length is below 100. -/
inductive ExtractError where
  | noPages
  | noContent
deriving DecidableEq

/-- The content validation of `extract_markdown_from_pdf` (pdf_scraper.py
lines 128–130): fail when the markdown is empty or its stripped length is
below 100 characters. -/
def contentCheck (md : String) : Except ExtractError String :=
  if md.isEmpty || (pyStrip md).length < 100 then .error .noContent
  else .ok md

/-- `extract_markdown_from_pdf` (pdf_scraper.py lines 110–132): fail on a
zero-page document; truncate to the first 10 pages when longer; convert
to markdown; apply the 100-character content check. -/
def extract_markdown_from_pdf (toMarkdown : List String → String)
    (doc : List String) : Except ExtractError String :=
  if doc.length = 0 then .error .noPages
  else contentCheck (toMarkdown (if doc.length ≤ 10 then doc else doc.take 10))

/-- A markdown converter returning 120 non-whitespace characters, enough
to pass the 100-character floor whatever the input pages are. -/
def richToMarkdown : List String → String :=
  fun _ => String.mk (List.replicate 120 'a')

/-- A well-formed document of 11 pages — one past the 10-page ceiling the
specification says forces rejection. -/
def elevenPageDoc : List String := List.replicate 11 "page content"

/-- C1: the claim states that a well-formed PDF with more than 10 pages
is always rejected by acquisition/normalization.  Counterexample: an
11-page document whose (truncated) markdown conversion yields rich
content is processed successfully — `extract_markdown_from_pdf` returns
`.ok`, not a failure. -/
theorem extract_markdown_accepts_eleven_pages :
    10 < elevenPageDoc.length ∧
      (extract_markdown_from_pdf richToMarkdown elevenPageDoc).isOk = true := by
  exact ⟨by decide, by decide⟩

/-- C1 (amended): a document with more than 10 pages is not rejected for
its page count; the code instead truncates it to its first 10 pages, so
extraction behaves exactly as it does on the 10-page truncation. -/
theorem extract_markdown_from_pdf_truncates_to_ten_pages
    (toMarkdown : List String → String) (doc : List String)
    (h : 10 < doc.length) :
    extract_markdown_from_pdf toMarkdown doc
      = extract_markdown_from_pdf toMarkdown (doc.take 10) := by
  have hne : ¬ doc.length = 0 := by omega
  have hgt : ¬ doc.length ≤ 10 := by omega
  have htake : (doc.take 10).length = 10 := by
    simp only [List.length_take]
    omega
  have htne : ¬ (doc.take 10).length = 0 := by omega
  have htle : (doc.take 10).length ≤ 10 := by omega
  simp only [extract_markdown_from_pdf, hne, hgt, htne, htle, if_false, if_true]

/-- Witness for C1's amended theorem at the concrete 11-page document. -/
theorem extract_markdown_truncates_witness :
    extract_markdown_from_pdf richToMarkdown elevenPageDoc
      = extract_markdown_from_pdf richToMarkdown (elevenPageDoc.take 10) :=
  extract_markdown_from_pdf_truncates_to_ten_pages richToMarkdown elevenPageDoc (by decide)

/-! ## C7: acquisition validation errors -/

/-- C7: the claim states that every downloaded byte sequence shorter than
1024 bytes fails with the corrupted/too-small error.  Counterexample: the
one-byte body `[0]` is shorter than 1024 bytes, yet `download_pdf`
reports `invalidFormat` (the magic-byte check runs first), not
`tooSmall`. -/
theorem short_non_pdf_fails_invalid_format :
    ([0] : List Nat).length < 1024 ∧
      download_pdf_validate [0] = .error .invalidFormat ∧
      DownloadError.invalidFormat ≠ DownloadError.tooSmall :=
  ⟨by decide, rfl, by decide⟩

/-- C7 (amended): a body not starting with `%PDF` always fails with the
invalid-format error (there is no HTML-link fallback in `download_pdf`,
so no recovery occurs); a body that does start with `%PDF` but is shorter
than 1024 bytes fails with the too-small error; and every body shorter
than 1024 bytes fails with one of the two errors — never silently
succeeds. -/
theorem download_pdf_validation_cases (c : List Nat) :
    (¬ pdfMagic.isPrefixOf c = true → download_pdf_validate c = .error .invalidFormat)
    ∧ (pdfMagic.isPrefixOf c = true → c.length < 1024 →
        download_pdf_validate c = .error .tooSmall)
    ∧ (c.length < 1024 → ∃ e, download_pdf_validate c = .error e) := by
  refine ⟨?_, ?_, ?_⟩
  · intro h
    simp [download_pdf_validate, h]
  · intro h hlen
    simp [download_pdf_validate, h, hlen]
  · intro hlen
    by_cases h : pdfMagic.isPrefixOf c = true
    · exact ⟨.tooSmall, by simp [download_pdf_validate, h, hlen]⟩
    · exact ⟨.invalidFormat, by simp [download_pdf_validate, h]⟩

/-- Witness for C7's amended theorem: the bare 4-byte `%PDF` header has
the magic bytes but is under 1024 bytes, and fails as too small. -/
theorem download_pdf_validation_witness :
    download_pdf_validate pdfMagic = .error .tooSmall :=
  (download_pdf_validation_cases pdfMagic).2.1 (by decide) (by decide)

/-! ## Batched standardized extraction:
`PDFScraper.extract_standardized_specs` (pdf_scraper.py lines 331–598)

The function makes a single batched Pass-3 model call covering all input
documents; the model's answer is external, so the Pass-3 outcome is a
parameter: either a parsed JSON array of spec objects, an unparseable
response (no JSON array found, lines 590–592), or a model/capability
error (the `except` branch, lines 594–598).  The code performs no
verification of the returned keys and no batch-splitting retry: the
parsed array is padded with placeholder objects and truncated to the
input length, and on both failure branches a placeholder is returned for
every input document. -/

/-- One element of the Pass-3 JSON array, with the keys the code reads:
`manufacturer`, `product_name`, and the `specifications` map (modelled as
an association list in response order). -/
structure SpecObj where
  manufacturer : String
  product_name : String
  specifications : List (String × String)
deriving DecidableEq

/-- The placeholder object used on every degraded path:
`{"manufacturer": "Unknown", "product_name": "Unknown", "specifications": {}}`
(pdf_scraper.py lines 348, 583, 592, 598). -/
def specPlaceholder : SpecObj :=
  { manufacturer := "Unknown", product_name := "Unknown", specifications := [] }

/-- Outcome of the single batched Pass-3 model call. -/
inductive Pass3Outcome where
  | parsed (arr : List SpecObj)
  | unparseable
  | capabilityError
deriving DecidableEq

/-- Python truthiness of an `Optional[str]` entry of `pdf_mds`, as tested
by `if not any(pdf_mds)`. -/
def mdTruthy : Option String → Bool
  | some s => !s.isEmpty
  | none => false

/-- `extract_standardized_specs` (pdf_scraper.py lines 331–598), as a
function of the input markdowns and the Pass-3 outcome.  With no truthy
markdown it returns a placeholder per input (lines 346–348).  A parsed
array is padded with placeholders up to the input length and truncated
to it (lines 582–589).  An unparseable response or a capability error
yields a placeholder per input (lines 590–598); no batch splitting or
retry is attempted. -/
def extract_standardized_specs (pdf_mds : List (Option String))
    (pass3 : Pass3Outcome) : List SpecObj :=
  if ¬ pdf_mds.any mdTruthy then pdf_mds.map (fun _ => specPlaceholder)
  else
    match pass3 with
    | .parsed arr =>
        (arr ++ List.replicate (pdf_mds.length - arr.length) specPlaceholder).take
          pdf_mds.length
    | .unparseable => pdf_mds.map (fun _ => specPlaceholder)
    | .capabilityError => pdf_mds.map (fun _ => specPlaceholder)

/-- The returned list always has exactly one element per input document. -/
theorem length_extract_standardized_specs (pdf_mds : List (Option String))
    (p : Pass3Outcome) :
    (extract_standardized_specs pdf_mds p).length = pdf_mds.length := by
  unfold extract_standardized_specs
  split
  · simp
  · cases p with
    | parsed arr =>
        simp only [List.length_take, List.length_append, List.length_replicate]
        omega
    | unparseable => simp
    | capabilityError => simp

/-! ## C10: output shape of the batched extraction -/

/-- C10: whenever the batched standardized extraction returns, its result
has exactly one element per input document: on the parsed path the model
array is padded with `{"manufacturer": "Unknown", "product_name":
"Unknown", "specifications": {}}` placeholders and truncated to the input
length; on the no-content, unparseable-response and capability-error
paths a placeholder is returned for every input. -/
theorem extract_standardized_specs_output_shape (pdf_mds : List (Option String))
    (p : Pass3Outcome) :
    (extract_standardized_specs pdf_mds p).length = pdf_mds.length
    ∧ (∀ arr, pdf_mds.any mdTruthy = true → p = .parsed arr →
        extract_standardized_specs pdf_mds p
          = (arr ++ List.replicate (pdf_mds.length - arr.length) specPlaceholder).take
              pdf_mds.length)
    ∧ (pdf_mds.any mdTruthy = false →
        extract_standardized_specs pdf_mds p = pdf_mds.map (fun _ => specPlaceholder))
    ∧ (p = .unparseable ∨ p = .capabilityError →
        extract_standardized_specs pdf_mds p = pdf_mds.map (fun _ => specPlaceholder)) := by
  refine ⟨length_extract_standardized_specs pdf_mds p, ?_, ?_, ?_⟩
  · intro arr hAny hp
    subst hp
    simp [extract_standardized_specs, hAny]
  · intro hAny
    simp [extract_standardized_specs, hAny]
  · intro hp
    rcases hp with hp | hp <;> subst hp <;>
      · unfold extract_standardized_specs
        split
        · rfl
        · rfl

/-- Witness for C10 at a concrete two-document batch whose parsed model
response has a single element: the output is padded to length two. -/
theorem extract_standardized_specs_output_shape_witness :
    extract_standardized_specs [some "doc one", some "doc two"]
        (.parsed [⟨"Acme", "Widget", [("voltage_v", "5")]⟩])
      = [⟨"Acme", "Widget", [("voltage_v", "5")]⟩, specPlaceholder] := by
  have h := (extract_standardized_specs_output_shape
      [some "doc one", some "doc two"]
      (.parsed [⟨"Acme", "Widget", [("voltage_v", "5")]⟩])).2.1
      [⟨"Acme", "Widget", [("voltage_v", "5")]⟩] (by decide) rfl
  rw [h]
  rfl

/-! ## C6: no batch-splitting retry -/

/-- A batch of six successfully extracted markdown documents. -/
def sixDocBatch : List (Option String) := List.replicate 6 (some "datasheet text")

/-- C6: the claim states that an unparseable batched extraction response
is retried by splitting the batch into smaller batches, so that documents
in a parsing sub-batch still get their specs.  Counterexample: for a
batch of six documents whose single batched call returns unparseable
JSON, the code returns the placeholder object for all six documents —
every returned record has empty specifications and no document is
retried in a sub-batch. -/
theorem unparseable_batch_yields_all_placeholders :
    extract_standardized_specs sixDocBatch .unparseable
        = List.replicate 6 specPlaceholder
    ∧ ∀ r ∈ extract_standardized_specs sixDocBatch .unparseable,
        r.specifications = [] := by
  exact ⟨by decide, by decide⟩

/-- C6 (amended): on an unparseable batched response — and likewise on a
model-call error — `extract_standardized_specs` does not split the batch
and retry; it returns the placeholder object (manufacturer "Unknown",
empty specifications) for every input document. -/
theorem extract_standardized_specs_no_batch_splitting (pdf_mds : List (Option String)) :
    extract_standardized_specs pdf_mds .unparseable
        = pdf_mds.map (fun _ => specPlaceholder)
    ∧ extract_standardized_specs pdf_mds .capabilityError
        = pdf_mds.map (fun _ => specPlaceholder) := by
  constructor <;>
    · unfold extract_standardized_specs
      split
      · rfl
      · rfl

/-! ## C2: no verification pass against raw attribute keys -/

/-- The exact-or-case-insensitive key check the specification's
verification pass describes: the surfaced key must occur among the
source's raw extracted attribute keys, either verbatim or after case
folding. -/
def keyMatches (k : String) (rawKeys : List String) : Bool :=
  rawKeys.contains k || (rawKeys.map pyToLower).contains (pyToLower k)

/-- The raw attribute keys of the counterexample source (what the Pass-1
regex scan of its markdown would surface). -/
def c2RawKeys : List String := ["Voltage", "Operating Temperature"]

/-- The Pass-3 model response for the counterexample: it reports a key
that exists nowhere in the source's raw attribute keys. -/
def c2Response : List SpecObj := [⟨"Acme", "Widget", [("hallucinated_key", "42")]⟩]

/-- C2: the claim states that every canonical-key entry surfaced in the
final output matches a real key of that source's raw attribute set
(exactly or case-insensitively), and that mappings failing both checks
are dropped.  Counterexample: the model response reports
`hallucinated_key` for a source whose raw keys are `Voltage` and
`Operating Temperature`; the key matches neither exactly nor
case-insensitively, yet it is surfaced unchanged in the output — no
verification pass exists in `extract_standardized_specs`. -/
theorem standardized_specs_surface_unverified_key :
    ((extract_standardized_specs [some "md"] (.parsed c2Response)).map
        SpecObj.specifications) = [[("hallucinated_key", "42")]]
    ∧ keyMatches "hallucinated_key" c2RawKeys = false := by
  exact ⟨by decide, by decide⟩

/-- C2 (amended): the specification keys surfaced in the final output are
taken verbatim from the parsed model response, with no re-check against
any source's raw attribute keys: whenever the parsed array has one
element per input, the output is the response itself, unchanged. -/
theorem extract_standardized_specs_verbatim_no_verification
    (pdf_mds : List (Option String)) (arr : List SpecObj)
    (hAny : pdf_mds.any mdTruthy = true) (hlen : arr.length = pdf_mds.length) :
    extract_standardized_specs pdf_mds (.parsed arr) = arr := by
  simp [extract_standardized_specs, hAny, hlen, List.take_of_length_le]

/-- Witness for C2's amended theorem: the hallucinated-key response is
returned verbatim. -/
theorem extract_standardized_specs_verbatim_witness :
    extract_standardized_specs [some "md"] (.parsed c2Response) = c2Response :=
  extract_standardized_specs_verbatim_no_verification [some "md"] c2Response
    (by decide) (by decide)

/-! ## Batch orchestration: `PDFScraper.scrape_multiple`
(pdf_scraper.py lines 232–329)

Each source's download-and-markdown step (`scrape_pdf` with
`extract_specs=False`, including the exception arm of `asyncio.gather`)
is summarised by a `FetchOutcome` parameter per URL.  The code partitions
results into failed and extractable ones in input order, returns the
failed ones alone when nothing was extractable, sorts the extractable
ones by score descending (Python's stable sort) and keeps the top 5,
returns top-plus-failed when fewer than 3 survive, and otherwise runs the
batched standardized extraction over the top results and returns only
those, dropping the failed records. -/

/-- Result of `scrape_pdf(url, extract_specs=False)` for one URL: an
error message, or the extracted markdown. -/
inductive FetchOutcome where
  | failed (msg : String)
  | fetched (md : String)
deriving DecidableEq

/-- One input to `scrape_multiple`: a URL, its search score, and the
outcome of its download/markdown step. -/
structure PdfFetch where
  url : String
  score : Int
  outcome : FetchOutcome
deriving DecidableEq

/-- The per-source result dictionary built by `scrape_multiple`, with the
keys the code writes: url, score, md, specs, manufacturer, product_name
and error. -/
structure SourceRecord where
  url : String
  score : Int
  md : Option String
  specs : List (String × String)
  manufacturer : Option String
  product_name : Option String
  error : Option String
deriving DecidableEq

/-- Whether a source's download/markdown step failed. -/
def isFailed (f : PdfFetch) : Bool :=
  match f.outcome with
  | .failed _ => true
  | .fetched _ => false

/-- The result dictionary for one source before spec extraction
(pdf_scraper.py lines 267–287): failures carry the error message and no
markdown; successes carry the markdown and no error. -/
def fetchRecord (f : PdfFetch) : SourceRecord :=
  match f.outcome with
  | .failed e => ⟨f.url, f.score, none, [], none, none, some e⟩
  | .fetched md => ⟨f.url, f.score, some md, [], none, none, none⟩

/-- Stable insertion for descending-by-score ordering: a record is placed
before the first strictly lower-scored record, after any equal-scored
ones already present (matching Python's stable `sort(reverse=True)`). -/
def insertByScoreDesc (r : SourceRecord) : List SourceRecord → List SourceRecord
  | [] => [r]
  | x :: xs => if x.score ≤ r.score then r :: x :: xs else x :: insertByScoreDesc r xs

/-- Stable sort by score, highest first
(`spec_extractable_results.sort(key=..., reverse=True)`). -/
def sortByScoreDesc : List SourceRecord → List SourceRecord
  | [] => []
  | a :: rest => insertByScoreDesc a (sortByScoreDesc rest)

/-- Merging one Pass-3 spec object into a source record
(pdf_scraper.py lines 321–326). -/
def mergeSpec (r : SourceRecord) (s : SpecObj) : SourceRecord :=
  { r with
      specs := s.specifications
      manufacturer := some s.manufacturer
      product_name := some s.product_name }

/-- `scrape_multiple` (pdf_scraper.py lines 232–329) as a function of the
per-source fetch outcomes and the Pass-3 outcome of the batched
extraction. -/
def scrape_multiple (inputs : List PdfFetch) (pass3 : Pass3Outcome) :
    List SourceRecord :=
  let failed := (inputs.filter (fun f => isFailed f)).map fetchRecord
  let extractable := (inputs.filter (fun f => !isFailed f)).map fetchRecord
  if extractable.length = 0 then failed
  else
    let top := (sortByScoreDesc extractable).take 5
    if top.length < 3 then top ++ failed
    else
      let specs := extract_standardized_specs (top.map (fun r => r.md)) pass3
      (top.zip specs).map (fun p => mergeSpec p.1 p.2)

/-- Membership is invariant under the stable insertion. -/
theorem mem_insertByScoreDesc {r x : SourceRecord} {l : List SourceRecord} :
    x ∈ insertByScoreDesc r l ↔ x = r ∨ x ∈ l := by
  induction l with
  | nil => simp [insertByScoreDesc]
  | cons a as ih =>
      simp only [insertByScoreDesc]
      split
      · simp
      · simp [ih]
        tauto

/-- Membership is invariant under the stable sort. -/
theorem mem_sortByScoreDesc {x : SourceRecord} {l : List SourceRecord} :
    x ∈ sortByScoreDesc l ↔ x ∈ l := by
  induction l with
  | nil => simp [sortByScoreDesc]
  | cons a as ih => simp [sortByScoreDesc, mem_insertByScoreDesc, ih]

/-- The stable insertion adds exactly one element. -/
theorem length_insertByScoreDesc (r : SourceRecord) (l : List SourceRecord) :
    (insertByScoreDesc r l).length = l.length + 1 := by
  induction l with
  | nil => rfl
  | cons a as ih =>
      simp only [insertByScoreDesc]
      split <;> simp [ih]

/-- The stable sort preserves length. -/
theorem length_sortByScoreDesc (l : List SourceRecord) :
    (sortByScoreDesc l).length = l.length := by
  induction l with
  | nil => rfl
  | cons a as ih => simp [sortByScoreDesc, length_insertByScoreDesc, ih]

/-- Merging specs into the top records does not change their URLs. -/
theorem map_url_merge (top : List SourceRecord) (specs : List SpecObj)
    (h : top.length ≤ specs.length) :
    ((top.zip specs).map (fun p => mergeSpec p.1 p.2)).map SourceRecord.url
      = top.map SourceRecord.url := by
  induction top generalizing specs with
  | nil => rfl
  | cons a rest ih =>
      cases specs with
      | nil => simp at h
      | cons b bs =>
          simp only [List.zip_cons_cons, List.map_cons, List.cons.injEq]
          exact ⟨rfl, ih bs (by simpa using h)⟩

/-! ## C4: no mutual-overlap pruning -/

/-- Number of canonical keys two sources share (the spec's "mutual
overlap"). -/
def overlapCount (a b : List String) : Nat :=
  (a.filter (fun k => b.contains k)).length

/-- Whether every pair of distinct surviving sources shares at least
`minO` canonical keys. -/
def pairwiseOverlapOk (minO : Nat) : List (List String) → Bool
  | [] => true
  | a :: rest =>
      rest.all (fun b => decide (minO ≤ overlapCount a b)) && pairwiseOverlapOk minO rest

/-- Minimum of a list of naturals, 0 for the empty list. -/
def listMinimum : List Nat → Nat
  | [] => 0
  | [x] => x
  | x :: y :: rest => min x (listMinimum (y :: rest))

/-- Modelled from the spec: total overlap of one source with the whole
surviving set, used to pick the "worst-overlap" source to remove. -/
def totalOverlap (sets : List (List String)) (a : List String) : Nat :=
  (sets.map (fun b => overlapCount a b)).sum

/-- Remove the first element carrying the given overlap score. -/
def removeFirstWithScore : List (List String × Nat) → Nat → List (List String)
  | [], _ => []
  | (s, v) :: rest, m =>
      if v = m then rest.map Prod.fst else s :: removeFirstWithScore rest m

/-- Modelled from the spec: remove the worst-overlap source (the first
one whose total overlap with the surviving set is minimal). -/
def removeWorst (sets : List (List String)) : List (List String) :=
  let scored := sets.map (fun s => (s, totalOverlap sets s))
  removeFirstWithScore scored (listMinimum (scored.map Prod.snd))

/-- Modelled from the spec: the iterative mutual-overlap pruning the
specification describes for the Coverage Selector — repeatedly remove the
worst-overlap source and recompute until every remaining pair shares at
least `minO` keys, with a keep-everyone floor so the result is never
emptied, and a hard iteration cap at the source count.  No counterpart of
this procedure exists anywhere in the repository's code; this definition
exists only to compare the code's behaviour against the claimed one. -/
def specMutualOverlapPrune (minO : Nat) : Nat → List (List String) → List (List String)
  | 0, sets => sets
  | fuel + 1, sets =>
      if pairwiseOverlapOk minO sets then sets
      else if sets.length ≤ 2 then sets
      else specMutualOverlapPrune minO fuel (removeWorst sets)

/-- Three successfully fetched sources for the C4 counterexample. -/
def c4Inputs : List PdfFetch :=
  [⟨"http://one.example/a.pdf", 3, .fetched "md one"⟩,
   ⟨"http://two.example/b.pdf", 2, .fetched "md two"⟩,
   ⟨"http://three.example/c.pdf", 1, .fetched "md three"⟩]

/-- Pass-3 response for C4: sources 1 and 2 share five keys; source 3
shares no key with either. -/
def c4Arr : List SpecObj :=
  [⟨"M1", "P1", [("a", "1"), ("b", "2"), ("c", "3"), ("d", "4"), ("e", "5")]⟩,
   ⟨"M2", "P2", [("a", "6"), ("b", "7"), ("c", "8"), ("d", "9"), ("e", "0")]⟩,
   ⟨"M3", "P3", [("x", "7")]⟩]

/-- The verified canonical-key sets of the records `scrape_multiple`
returns on the C4 counterexample input. -/
def c4KeySets : List (List String) :=
  (scrape_multiple c4Inputs (.parsed c4Arr)).map (fun r => r.specs.map Prod.fst)

/-- C4: the claim states that after iterative mutual-overlap pruning all
pairs of surviving sources share at least the configured minimum (4)
canonical keys unless the keep-everyone floor was reached.
Counterexample: the code keeps a source sharing zero keys with both
others even though pruning it (as the described procedure does — without
hitting any floor) leaves a surviving pair sharing five keys.  No pruning
step exists in `scrape_multiple`. -/
theorem scrape_multiple_keeps_zero_overlap_source :
    c4KeySets = [["a", "b", "c", "d", "e"], ["a", "b", "c", "d", "e"], ["x"]]
    ∧ overlapCount ["a", "b", "c", "d", "e"] ["x"] = 0
    ∧ pairwiseOverlapOk 4 c4KeySets = false
    ∧ specMutualOverlapPrune 4 c4KeySets.length c4KeySets
        = [["a", "b", "c", "d", "e"], ["a", "b", "c", "d", "e"]] := by
  exact ⟨by decide, by decide, by decide, by decide⟩

/-- C4 (amended): `scrape_multiple` performs no overlap-based pruning at
all — which sources appear in the returned record set (and in which
order) is entirely independent of the extracted specification keys: the
URL sequence of the output is the same whatever the batched extraction
returns. -/
theorem scrape_multiple_urls_independent_of_specs (inputs : List PdfFetch)
    (p q : Pass3Outcome) :
    (scrape_multiple inputs p).map SourceRecord.url
      = (scrape_multiple inputs q).map SourceRecord.url := by
  simp only [scrape_multiple]
  split
  · rfl
  · split
    · rfl
    · have hlen : ∀ r : Pass3Outcome,
          ((sortByScoreDesc ((inputs.filter (fun f => !isFailed f)).map fetchRecord)).take
              5).length
            ≤ (extract_standardized_specs
                (((sortByScoreDesc
                    ((inputs.filter (fun f => !isFailed f)).map fetchRecord)).take
                  5).map (fun r => r.md)) r).length := by
        intro r
        rw [length_extract_standardized_specs, List.length_map]
      rw [map_url_merge _ _ (hlen p), map_url_merge _ _ (hlen q)]

/-! ## C5: failed sources on the success path -/

/-- Four sources for the C5 counterexample: the highest-scored one fails
to download, the other three succeed. -/
def c5Inputs : List PdfFetch :=
  [⟨"http://fail.example/x.pdf", 9, .failed "Failed to download PDF"⟩,
   ⟨"http://ok1.example/a.pdf", 3, .fetched "md a"⟩,
   ⟨"http://ok2.example/b.pdf", 2, .fetched "md b"⟩,
   ⟨"http://ok3.example/c.pdf", 1, .fetched "md c"⟩]

/-- C5: the claim states that every input document whose acquisition
fails is still present in the returned record set with an error marker.
Counterexample: with three successful sources (enough for the comparison
path) and one failed download, the returned record set contains only the
three successful sources — the failed one is silently absent. -/
theorem scrape_multiple_drops_failed_on_success_path :
    ((scrape_multiple c5Inputs (.parsed [])).map SourceRecord.url)
      = ["http://ok1.example/a.pdf", "http://ok2.example/b.pdf",
         "http://ok3.example/c.pdf"]
    ∧ ∀ r ∈ scrape_multiple c5Inputs (.parsed []),
        r.url ≠ "http://fail.example/x.pdf" := by
  exact ⟨by decide, by decide⟩

/-- C5 (amended): failed sources are reported with their error marker
only on the degraded paths — when no source, or fewer than three top
sources, could be extracted; on the success path (three or more
extractable sources) every returned record is error-free and the failed
sources are dropped from the output. -/
theorem scrape_multiple_failure_reporting (inputs : List PdfFetch)
    (p : Pass3Outcome) :
    (3 ≤ (inputs.filter (fun f => !isFailed f)).length →
      ∀ r ∈ scrape_multiple inputs p, r.error = none)
    ∧ ((inputs.filter (fun f => !isFailed f)).length < 3 →
      ∀ f ∈ inputs, isFailed f = true →
        ∃ r ∈ scrape_multiple inputs p, r.url = f.url ∧ r.error = some
          (match f.outcome with | .failed e => e | .fetched _ => "")) := by
  constructor
  · intro h3 r hr
    have hlen : ((inputs.filter (fun f => !isFailed f)).map fetchRecord).length
        = (inputs.filter (fun f => !isFailed f)).length := List.length_map _ _
    simp only [scrape_multiple] at hr
    rw [if_neg (by omega)] at hr
    rw [if_neg (by
      rw [List.length_take, length_sortByScoreDesc, hlen]
      omega)] at hr
    simp only [List.mem_map] at hr
    obtain ⟨pr, hpr, hre⟩ := hr
    have h1 : pr.1 ∈ (sortByScoreDesc
        ((inputs.filter (fun f => !isFailed f)).map fetchRecord)).take 5 :=
      (List.of_mem_zip hpr).1
    have h2 : pr.1 ∈ sortByScoreDesc
        ((inputs.filter (fun f => !isFailed f)).map fetchRecord) :=
      List.take_subset 5 _ h1
    rw [mem_sortByScoreDesc] at h2
    simp only [List.mem_map, List.mem_filter] at h2
    obtain ⟨f, ⟨_, hok⟩, hf⟩ := h2
    have herr : pr.1.error = none := by
      rw [← hf]
      cases hout : f.outcome with
      | failed e => simp [isFailed, hout] at hok
      | fetched md => simp [fetchRecord, hout]
    rw [← hre]
    simpa [mergeSpec] using herr
  · intro hlt f hf hfail
    have hmem : fetchRecord f ∈ (inputs.filter (fun g => isFailed g)).map fetchRecord :=
      List.mem_map_of_mem _ (List.mem_filter.2 ⟨hf, hfail⟩)
    have hgoal : fetchRecord f ∈ scrape_multiple inputs p := by
      have hlen : ((inputs.filter (fun g => !isFailed g)).map fetchRecord).length
          = (inputs.filter (fun g => !isFailed g)).length := List.length_map _ _
      simp only [scrape_multiple]
      split
      · exact hmem
      · rw [if_pos (by
          rw [List.length_take, length_sortByScoreDesc, hlen]
          omega)]
        exact List.mem_append_right _ hmem
    refine ⟨fetchRecord f, hgoal, ?_, ?_⟩
    · cases hout : f.outcome <;> simp [fetchRecord, hout]
    · cases hout : f.outcome with
      | failed e => simp [fetchRecord, hout]
      | fetched md => simp [isFailed, hout] at hfail

/-- Witness for C5's amended theorem: on a two-source input (below the
three-source comparison floor) the failed source appears in the output
with its error message. -/
theorem scrape_multiple_failure_reporting_witness :
    ∃ r ∈ scrape_multiple
        [⟨"http://fail.example/x.pdf", 9, .failed "timeout"⟩,
         ⟨"http://ok1.example/a.pdf", 3, .fetched "md a"⟩] .unparseable,
      r.url = "http://fail.example/x.pdf" ∧ r.error = some "timeout" := by
  have h := (scrape_multiple_failure_reporting
      [⟨"http://fail.example/x.pdf", 9, .failed "timeout"⟩,
       ⟨"http://ok1.example/a.pdf", 3, .fetched "md a"⟩] .unparseable).2
      (by decide) ⟨"http://fail.example/x.pdf", 9, .failed "timeout"⟩
      (by decide) (by decide)
  exact h

/-! ## Final column collection: `search_parts` (parts.py lines 122–131)

The route collects the spec column names for the final response by
walking every part's specs dict in order and recording each key other
than `"error"` once, at its first appearance (a Python dict used as an
ordered set).  Each part's specs dict is modelled by its key list in
insertion order. -/

/-- Record a key at its first appearance (`all_spec_keys[key] = True` on
a Python dict keeps the first insertion position). -/
def insertColumn (acc : List String) (k : String) : List String :=
  if k ∈ acc then acc else acc ++ [k]

/-- Walk one part's spec keys, skipping `"error"`. -/
def addPartKeys (acc : List String) (keys : List String) : List String :=
  keys.foldl (fun a k => if k = "error" then a else insertColumn a k) acc

/-- `ordered_columns` of `search_parts` (parts.py lines 124–131): every
distinct non-`"error"` key of any part's specs, in first-appearance
order. -/
def collect_spec_columns (parts : List (List String)) : List String :=
  parts.foldl addPartKeys []

/-- Number of parts whose specs contain the key — the claim's "coverage"
of a canonical key. -/
def columnCoverage (parts : List (List String)) (k : String) : Nat :=
  (parts.filter (fun keys => keys.contains k)).length

/-- Membership in the first-appearance insertion. -/
theorem mem_insertColumn {acc : List String} {x k : String} :
    k ∈ insertColumn acc x ↔ k ∈ acc ∨ k = x := by
  unfold insertColumn
  split
  · rename_i h
    exact ⟨Or.inl, fun h2 => h2.elim id (fun he => he ▸ h)⟩
  · simp [List.mem_append]

/-- Membership after walking one part's keys. -/
theorem mem_addPartKeys (keys acc : List String) (k : String) :
    k ∈ addPartKeys acc keys ↔ k ∈ acc ∨ (k ≠ "error" ∧ k ∈ keys) := by
  induction keys generalizing acc with
  | nil => simp [addPartKeys]
  | cons x xs ih =>
      simp only [addPartKeys, List.foldl_cons] at ih ⊢
      by_cases hx : x = "error"
      · subst hx
        rw [if_pos rfl, ih]
        simp only [List.mem_cons]
        constructor
        · rintro (hk | ⟨hne, hxs⟩)
          · exact Or.inl hk
          · exact Or.inr ⟨hne, Or.inr hxs⟩
        · rintro (hk | ⟨hne, (rfl | hxs)⟩)
          · exact Or.inl hk
          · exact absurd rfl hne
          · exact Or.inr ⟨hne, hxs⟩
      · rw [if_neg hx, ih, mem_insertColumn]
        simp only [List.mem_cons]
        constructor
        · rintro ((hk | rfl) | ⟨hne, hxs⟩)
          · exact Or.inl hk
          · exact Or.inr ⟨hx, Or.inl rfl⟩
          · exact Or.inr ⟨hne, Or.inr hxs⟩
        · rintro (hk | ⟨hne, (rfl | hxs)⟩)
          · exact Or.inl (Or.inl hk)
          · exact Or.inl (Or.inr rfl)
          · exact Or.inr ⟨hne, hxs⟩

/-- Membership after walking all parts from a given accumulator. -/
theorem mem_foldl_addPartKeys (parts : List (List String)) (acc : List String)
    (k : String) :
    k ∈ parts.foldl addPartKeys acc
      ↔ k ∈ acc ∨ (k ≠ "error" ∧ ∃ keys ∈ parts, k ∈ keys) := by
  induction parts generalizing acc with
  | nil => simp
  | cons p ps ih =>
      simp only [List.foldl_cons]
      rw [ih, mem_addPartKeys]
      simp only [List.mem_cons]
      constructor
      · rintro ((hk | ⟨hne, hp⟩) | ⟨hne, keys, hks, hk⟩)
        · exact Or.inl hk
        · exact Or.inr ⟨hne, p, Or.inl rfl, hp⟩
        · exact Or.inr ⟨hne, keys, Or.inr hks, hk⟩
      · rintro (hk | ⟨hne, keys, (rfl | hks), hk⟩)
        · exact Or.inl (Or.inl hk)
        · exact Or.inl (Or.inr ⟨hne, hk⟩)
        · exact Or.inr ⟨hne, keys, hks, hk⟩

/-- C3: the claim states that only canonical keys with coverage ≥ 2 are
retained, and no key backed by a single source appears in the final
column set.  Counterexample: with one part exposing only `voltage` and a
second exposing `voltage` and `weight`, the key `weight` has coverage 1
yet appears in the final column set — `search_parts` applies no coverage
filter. -/
theorem single_source_key_in_columns :
    "weight" ∈ collect_spec_columns [["voltage"], ["voltage", "weight"]]
    ∧ columnCoverage [["voltage"], ["voltage", "weight"]] "weight" = 1 := by
  exact ⟨by decide, by decide⟩

/-- C3 (amended): the final column set contains every distinct spec key
other than `"error"` that occurs in any part's specs — membership is
exactly occurrence in at least one source, with no minimum-coverage
requirement. -/
theorem mem_collect_spec_columns (parts : List (List String)) (k : String) :
    k ∈ collect_spec_columns parts
      ↔ k ≠ "error" ∧ ∃ keys ∈ parts, k ∈ keys := by
  unfold collect_spec_columns
  rw [mem_foldl_addPartKeys]
  simp

/-! ## Per-source scraping: `PDFScraper.scrape_pdf`
(pdf_scraper.py lines 183–230, with `extract_specs=False` as
`scrape_multiple` invokes it)

The network fetch and the `fitz` byte-to-document parse are parameters;
the validation, truncation and content checks are the embedded functions
above.  The exception text of each stage is recorded in the `error`
field. -/

/-- Message text of the two `download_pdf` validation errors. -/
def downloadErrMsg : DownloadError → String
  | .invalidFormat => "URL does not point to a valid PDF file (missing PDF header)"
  | .tooSmall => "PDF file too small - likely corrupted"

/-- Message text of the two `extract_markdown_from_pdf` errors. -/
def extractErrMsg : ExtractError → String
  | .noPages => "PDF has no pages"
  | .noContent => "PDF extraction produced no meaningful content"

/-- The result dictionary of `scrape_pdf`: url, md, specs, error. -/
structure ScrapeResult where
  url : String
  md : Option String
  specs : List (String × String)
  error : Option String
deriving DecidableEq

/-- `scrape_pdf` (pdf_scraper.py lines 194–230): download and validate,
extract markdown (with page truncation and the 100-character floor),
re-check that the stripped markdown is non-empty, then record the
markdown; any raised error is caught and recorded with `md` left absent. -/
def scrape_pdf (url : String) (net : Except String (List Nat))
    (parseDoc : List Nat → Except String (List String))
    (toMarkdown : List String → String) : ScrapeResult :=
  match net with
  | .error e =>
      ⟨url, none, [], some ("Failed to download PDF from " ++ url ++ ": " ++ e)⟩
  | .ok content =>
      match download_pdf_validate content with
      | .error e =>
          ⟨url, none, [],
            some ("Failed to download PDF from " ++ url ++ ": " ++ downloadErrMsg e)⟩
      | .ok valid =>
          match parseDoc valid with
          | .error e =>
              ⟨url, none, [], some ("Failed to extract markdown from PDF: " ++ e)⟩
          | .ok doc =>
              match extract_markdown_from_pdf toMarkdown doc with
              | .error e =>
                  ⟨url, none, [],
                    some ("Failed to extract markdown from PDF: " ++ extractErrMsg e)⟩
              | .ok md =>
                  if (pyStrip md).isEmpty then
                    ⟨url, none, [],
                      some ("No markdown could be extracted from pdf at " ++ url)⟩
                  else ⟨url, some md, [], none⟩

/-- A markdown string passing the content check is non-empty and has at
least 100 stripped characters. -/
theorem contentCheck_ok {md0 md : String} (h : contentCheck md0 = .ok md) :
    md.isEmpty = false ∧ 100 ≤ (pyStrip md).length := by
  unfold contentCheck at h
  by_cases hc : (md0.isEmpty || decide ((pyStrip md0).length < 100)) = true
  · rw [if_pos hc] at h
    cases h
  · rw [if_neg hc] at h
    injection h with h1
    subst h1
    simp only [Bool.or_eq_true, decide_eq_true_eq, not_or, not_lt] at hc
    exact ⟨by simpa using hc.1, hc.2⟩

/-- A successful markdown extraction passed the content checks. -/
theorem extract_markdown_from_pdf_ok {toMarkdown : List String → String}
    {doc : List String} {md : String}
    (h : extract_markdown_from_pdf toMarkdown doc = .ok md) :
    md.isEmpty = false ∧ 100 ≤ (pyStrip md).length := by
  unfold extract_markdown_from_pdf at h
  by_cases h0 : doc.length = 0
  · rw [if_pos h0] at h
    cases h
  · rw [if_neg h0] at h
    exact contentCheck_ok h

/-- C8: every record produced by per-source scraping satisfies the
AcquiredContent invariant — on a failure outcome (error set) the markdown
field is absent, and on a success outcome (no error) the markdown is
non-empty with at least 100 characters after stripping. -/
theorem scrape_pdf_content_invariant (url : String) (net : Except String (List Nat))
    (parseDoc : List Nat → Except String (List String))
    (toMarkdown : List String → String) :
    ((scrape_pdf url net parseDoc toMarkdown).error.isSome = true →
      (scrape_pdf url net parseDoc toMarkdown).md = none)
    ∧ ((scrape_pdf url net parseDoc toMarkdown).error = none →
      ∃ m, (scrape_pdf url net parseDoc toMarkdown).md = some m
        ∧ m.isEmpty = false ∧ 100 ≤ (pyStrip m).length) := by
  unfold scrape_pdf
  cases net with
  | error e => simp
  | ok content =>
      cases hv : download_pdf_validate content with
      | error e => simp [hv]
      | ok valid =>
          cases hp : parseDoc valid with
          | error e => simp [hv, hp]
          | ok doc =>
              cases he : extract_markdown_from_pdf toMarkdown doc with
              | error e => simp [hv, hp, he]
              | ok md =>
                  have h100 := extract_markdown_from_pdf_ok he
                  simp only [hv, hp, he]
                  split
                  · simp
                  · exact ⟨fun h => by simp at h, fun _ => ⟨md, rfl, h100⟩⟩

/-- A 1024-byte body carrying the `%PDF` header. -/
def validPdfBytes : List Nat := pdfMagic ++ List.replicate 1020 0

/-- Witness for C8 at a concrete successful scrape: the invariant's
success half yields markdown of at least 100 stripped characters. -/
theorem scrape_pdf_content_invariant_witness :
    ∃ m, (scrape_pdf "http://w.example/d.pdf" (.ok validPdfBytes)
        (fun _ => .ok ["page"]) richToMarkdown).md = some m
      ∧ m.isEmpty = false ∧ 100 ≤ (pyStrip m).length :=
  (scrape_pdf_content_invariant "http://w.example/d.pdf" (.ok validPdfBytes)
    (fun _ => .ok ["page"]) richToMarkdown).2 rfl

/-! ## Contact-URL resolution: `ServiceScraper.scrape_multiple`, third
pass (service_scraper.py lines 204–258)

For each error-free record the code keeps an AI-extracted contact URL
when it is non-empty and starts with `http`; otherwise it crawls the
homepage (`find_contact_url`, external network — outcome is a
parameter), and on no result tests the derived `/contact` URL with a
HEAD request (status is a parameter, `none` for a raised request error);
only a 200 status keeps the derived guess, anything else falls back to
the bare homepage, as does any exception during discovery.
`derive_contact_url` and `find_contact_url` are imported from
`utils.pdf_scraper` but that module's source in the tree does not define
them, so the derived-guess shape is modelled from the spec. -/

/-- A source URL split into the parts `urlparse` exposes. -/
structure PageUrl where
  scheme : String
  host : String
deriving DecidableEq

/-- `{scheme}://{netloc}` — the bare homepage fallback. -/
def homepage_of (u : PageUrl) : String := u.scheme ++ "://" ++ u.host

/-- Modelled from the spec: `derive_contact_url` (imported by
service_scraper.py from `utils.pdf_scraper` but absent from the source
tree) — "derive `{scheme}://{host}/contact` from the source URL as a
cheap guess". -/
def derive_contact_url (u : PageUrl) : String :=
  u.scheme ++ "://" ++ u.host ++ "/contact"

/-- Outcome of the external homepage crawl `find_contact_url`: a contact
link, no link, or a raised exception. -/
inductive CrawlOutcome where
  | found (url : String)
  | notFound
  | crashed
deriving DecidableEq

/-- The per-record contact-URL decision of service_scraper.py lines
209–258, as a function of the AI-extracted URL, the parsed source URL,
the crawl outcome and the HEAD status of the derived URL (`none` when
the request raised). -/
def resolve_contact_url (aiUrl : String) (u : PageUrl) (crawl : CrawlOutcome)
    (headStatus : Option Nat) : String :=
  if !aiUrl.isEmpty && pyStartsWith aiUrl "http" then aiUrl
  else
    match crawl with
    | .found c => c
    | .crashed => homepage_of u
    | .notFound =>
        match headStatus with
        | some 200 => derive_contact_url u
        | some _ => homepage_of u
        | none => homepage_of u

/-- C9: the claim states that when no verification succeeds (no crawled
contact link, derived URL not answering 200) the cheap derived guess is
kept.  Counterexample: with no AI-extracted URL, a crawl that finds
nothing and a derived URL answering 404, the code attaches the bare
homepage — the unverified derived guess is never kept. -/
theorem contact_url_unverified_guess_not_kept :
    resolve_contact_url "" ⟨"https", "example.com"⟩ .notFound (some 404)
        = homepage_of ⟨"https", "example.com"⟩
    ∧ homepage_of ⟨"https", "example.com"⟩
        ≠ derive_contact_url ⟨"https", "example.com"⟩ := by
  exact ⟨rfl, by decide⟩

/-- C9 (amended): a non-empty AI-extracted URL starting with `http` is
kept unverified; otherwise the first verified result wins — the crawled
contact link, else the derived `/contact` URL when it answers 200 — and
when no verification succeeds (non-200 status, request error, or crawl
exception) the bare homepage is attached, never the unverified derived
guess. -/
theorem resolve_contact_url_fallback_order (aiUrl : String) (u : PageUrl)
    (crawl : CrawlOutcome) (st : Option Nat) :
    ((!aiUrl.isEmpty && pyStartsWith aiUrl "http") = true →
        resolve_contact_url aiUrl u crawl st = aiUrl)
    ∧ ((!aiUrl.isEmpty && pyStartsWith aiUrl "http") = false →
        (∀ c, crawl = .found c → resolve_contact_url aiUrl u crawl st = c)
        ∧ (crawl = .notFound → st = some 200 →
            resolve_contact_url aiUrl u crawl st = derive_contact_url u)
        ∧ (crawl = .notFound → ∀ n, st = some n → n ≠ 200 →
            resolve_contact_url aiUrl u crawl st = homepage_of u)
        ∧ (crawl = .notFound → st = none →
            resolve_contact_url aiUrl u crawl st = homepage_of u)
        ∧ (crawl = .crashed → resolve_contact_url aiUrl u crawl st = homepage_of u)) := by
  constructor
  · intro h
    simp [resolve_contact_url, h]
  · intro h
    refine ⟨?_, ?_, ?_, ?_, ?_⟩
    · rintro c rfl
      simp [resolve_contact_url, h]
    · rintro rfl rfl
      simp [resolve_contact_url, h]
    · rintro rfl n rfl hn
      simp only [resolve_contact_url, h, Bool.false_eq_true, if_false]
    · rintro rfl rfl
      simp [resolve_contact_url, h]
    · rintro rfl
      simp [resolve_contact_url, h]

/-- Witness for C9's amended theorem: a crawled contact link wins. -/
theorem resolve_contact_url_fallback_witness :
    resolve_contact_url "" ⟨"https", "supplier.example"⟩
        (.found "https://supplier.example/contact-us") none
      = "https://supplier.example/contact-us" :=
  ((resolve_contact_url_fallback_order "" ⟨"https", "supplier.example"⟩
      (.found "https://supplier.example/contact-us") none).2 (by decide)).1
    "https://supplier.example/contact-us" rfl

end Sourcivity
